import Mathlib

/-!
Verification of the unifront CRUD front-end (students / courses / enrollments /
teachers).  The JavaScript components are shallowly embedded: each event
handler becomes a pure Lean function from the component's state (and, for
fallible API calls, a `Bool` outcome) to the new state together with the list
of API calls it issues.  Strings are modelled through their character lists;
JavaScript `substring`, `replace(regex, '')` and `split` are modelled by the
corresponding list operations on characters.
-/

/-- JS `value.replace(/[^0-9]/g, '')`: keep only the ASCII digits. -/
def stripNonDigits (value : String) : String :=
  String.mk (value.data.filter Char.isDigit)

/-- A letter or whitespace, the character class kept by
`value.replace(/[^a-zA-Z\s]/g, '')`. -/
def isLetterOrSpace (c : Char) : Bool :=
  c.isAlpha || c.isWhitespace

/-- JS `value.replace(/[^a-zA-Z\s]/g, '')`: keep only letters and whitespace. -/
def stripNonLetters (value : String) : String :=
  String.mk (value.data.filter isLetterOrSpace)

/-- JS `value.substring(0, n)`: the first `n` characters. -/
def jsSubstringTo (value : String) (n : Nat) : String :=
  String.mk (value.data.take n)

/-- Decimal value of a digit string, as accumulated by `parseInt` on an
all-digit input. -/
def digitsToNat (l : List Char) : Nat :=
  l.foldl (fun acc c => acc * 10 + (c.toNat - 48)) 0

/-- JS `parseInt(s)` applied to a string already stripped to digits only:
`NaN` (modelled `none`) exactly when the string is empty, otherwise the
decimal value. -/
def parseIntOpt (s : String) : Option Nat :=
  if s.isEmpty then none else some (digitsToNat s.data)

/-- `nota` case of `Inscripciones.handleChange`
(src/src/components/Profesores.js lines 674-679):
`newValue = value.replace(/[^0-9]/g, '')` then
`newValue = Math.max(0, Math.min(10, parseInt(newValue))) || ''`.
The result held in form state is either the empty string (modelled `none`,
produced both when `parseInt` yields `NaN` and when the clamped number is `0`,
since `0 || ''` evaluates to `''`) or a number in 1..10 (modelled `some n`). -/
def notaNormalize (value : String) : Option Nat :=
  match parseIntOpt (stripNonDigits value) with
  | none => none
  | some n =>
    let clamped := max 0 (min 10 n)
    if clamped = 0 then none else some clamped

/-- `dni` case of `Profesores.handleChange`
(src/src/components/Profesores.js lines 118-121):
`value.replace(/[^0-9]/g, '')` then `.substring(0, 8)`. -/
def dniNormalize (value : String) : String :=
  jsSubstringTo (stripNonDigits value) 8

/-- `nombre` case of `Cursos.handleChange` (src/unnamed/part_003 lines
146-148).  The source computes `newValue = value.replace(/[^a-zA-Z\s]/g, '')`
and then reassigns `newValue = value.substring(0, 50)` from the raw `value`,
so the stripped string is discarded and only the truncation survives. -/
def cursosNombreNormalize (value : String) : String :=
  let newValue := stripNonLetters value
  let newValue := jsSubstringTo value 50
  newValue

/-- `nombre` case of `Cursos.handleSearchChange` (src/unnamed/part_003 lines
255-257), which strips and then truncates the stripped value. -/
def cursosNombreSearchNormalize (value : String) : String :=
  jsSubstringTo (stripNonLetters value) 50

/-- C9: the DNI field-change normalization is the input with all non-digit
characters removed, truncated to at most 8 characters: the result has length
at most 8, consists of digits only, is a subsequence of the raw input, and the
spec scenario "12a3!4" normalizes to "1234". -/
theorem dni_normalize_strips_and_truncates (value : String) :
    (dniNormalize value).length ≤ 8
    ∧ (∀ c ∈ (dniNormalize value).data, c.isDigit)
    ∧ (dniNormalize value).data.Sublist value.data
    ∧ dniNormalize "12a3!4" = "1234" := by
  refine ⟨?_, ?_, ?_, by decide⟩
  · show ((value.data.filter Char.isDigit).take 8).length ≤ 8
    calc ((value.data.filter Char.isDigit).take 8).length
        = min 8 (value.data.filter Char.isDigit).length := List.length_take ..
      _ ≤ 8 := Nat.min_le_left ..
  · intro c hc
    have hmem : c ∈ value.data.filter Char.isDigit :=
      List.take_subset _ _ hc
    exact (List.mem_filter.mp hmem).2
  · exact (List.take_sublist _ _).trans (List.filter_sublist _)

/-- C1: whenever the digit-stripped grade input parses to a number above 10,
the normalized value held in form state is clamped to 10; in particular the
input "15" normalizes to 10 (rendered "10"). -/
theorem nota_clamped_into_range (value : String) (n : Nat)
    (h : parseIntOpt (stripNonDigits value) = some n) (hn : 10 < n) :
    notaNormalize value = some 10 ∧ notaNormalize "15" = some 10 := by
  constructor
  · unfold notaNormalize
    rw [h]
    have hmin : min 10 n = 10 := Nat.min_eq_left hn.le
    simp [hmin]
  · decide

/-- Witness for C1 at the spec's own scenario input "15". -/
theorem nota_clamped_into_range_witness :
    (parseIntOpt (stripNonDigits "15") = some 15 ∧ 10 < 15)
    ∧ (notaNormalize "15" = some 10 ∧ notaNormalize "15" = some 10) :=
  ⟨⟨by decide, by decide⟩, nota_clamped_into_range "15" 15 (by decide) (by decide)⟩

/-- C10: a grade input whose digits parse to 0 is normalized to the empty
string (`none`), not to "0": the clamped value 0 is falsy, so `0 || ''`
replaces it by `''`; consequently no input normalizes to the in-range value 0,
and in particular the input "0" yields the empty string. -/
theorem nota_zero_becomes_empty (value : String)
    (h : parseIntOpt (stripNonDigits value) = some 0) :
    notaNormalize value = none
    ∧ (∀ w : String, notaNormalize w ≠ some 0)
    ∧ notaNormalize "0" = none := by
  refine ⟨?_, ?_, by decide⟩
  · unfold notaNormalize
    rw [h]
    simp
  · intro w hw
    unfold notaNormalize at hw
    cases hpw : parseIntOpt (stripNonDigits w) with
    | none => rw [hpw] at hw; exact Option.noConfusion hw
    | some m =>
      rw [hpw] at hw
      simp only at hw
      by_cases hz : max 0 (min 10 m) = 0
      · rw [if_pos hz] at hw; exact Option.noConfusion hw
      · rw [if_neg hz] at hw
        exact hz (Option.some.injEq _ _ ▸ hw)

/-- Witness for C10 at the input "0". -/
theorem nota_zero_becomes_empty_witness :
    (parseIntOpt (stripNonDigits "0") = some 0)
    ∧ (notaNormalize "0" = none
       ∧ (∀ w : String, notaNormalize w ≠ some 0)
       ∧ notaNormalize "0" = none) :=
  ⟨by decide, nota_zero_becomes_empty "0" (by decide)⟩

/-- C2: the Cursos name-field normalization does NOT strip disallowed
characters: because the truncation on line 148 reads the raw `value` rather
than the stripped `newValue`, the digit '3' and the '!' survive into form
state, while the search-field variant of the same rule (lines 255-257) does
strip them.  The claimed strip-then-truncate behaviour fails on "Alg3bra!". -/
theorem cursos_nombre_strip_discarded :
    cursosNombreNormalize "Alg3bra!" = "Alg3bra!"
    ∧ cursosNombreNormalize "Alg3bra!" ≠ stripNonLetters "Alg3bra!"
    ∧ cursosNombreSearchNormalize "Alg3bra!" = "Algbra" := by
  refine ⟨by decide, by decide, by decide⟩

/-!  The `Profesores` component (src/src/components/Profesores.js).  Its state
hooks (`profesores`, `editing`, `form`, `error`, `open`, `idEliminar`) are
collected in one structure; the timer handle `timeoutId` carries no claim and
is not modelled.  Each handler returns the new state and the list of API calls
it issues, in order.  A fallible round-trip takes a `Bool` outcome selecting
the `try` or the `catch` branch. -/

/-- The professor form payload: the six text fields of the `form` hook. -/
structure ProfForm where
  dni : String
  nombre : String
  apellido : String
  email : String
  profesion : String
  telefono : String
deriving DecidableEq

/-- The empty payload the form is initialised and reset to. -/
def emptyProfForm : ProfForm :=
  { dni := "", nombre := "", apellido := "", email := "", profesion := "", telefono := "" }

/-- A professor entity as read from the API. -/
structure Profesor where
  id : Nat
  dni : String
  nombre : String
  apellido : String
  email : String
  profesion : String
  telefono : String
deriving DecidableEq

/-- An API call issued by the Profesores component.  Bodies of `put`/`post`
are the submitted form payload. -/
inductive ProfCall where
  | get : String → ProfCall
  | post : String → ProfForm → ProfCall
  | put : String → ProfForm → ProfCall
  | delete : String → ProfCall
deriving DecidableEq

/-- Whether a call is a DELETE. -/
def ProfCall.isDelete : ProfCall → Bool
  | ProfCall.delete _ => true
  | _ => false

/-- The component's state hooks. -/
structure ProfState where
  profesores : List Profesor
  editing : Option Nat
  form : ProfForm
  error : Option String
  «open» : Bool
  idEliminar : Option Nat
deriving DecidableEq

/-- The initial state of the hooks (lines 58-71). -/
def initialProfState : ProfState :=
  { profesores := [], editing := none, form := emptyProfForm,
    error := none, «open» := false, idEliminar := none }

/-- JS template interpolation of a possibly-null id, as in
`` `/profesores/${idEliminar}` ``: `null` prints as "null". -/
def idInterp : Option Nat → String
  | some n => toString n
  | none => "null"

/-- `Profesores.handleEdit` (lines 179-182): `setEditing(profesor.id)` and
`setForm(profesor)`.  The JS object spread into the form carries the entity's
field values (plus its `id` property, which no claim observes); the six form
fields are modelled. -/
def profHandleEdit (s : ProfState) (p : Profesor) : ProfState :=
  { s with editing := some p.id,
           form := { dni := p.dni, nombre := p.nombre, apellido := p.apellido,
                     email := p.email, profesion := p.profesion, telefono := p.telefono } }

/-- The form's Cancelar button (lines 443-447): `onClick={() => setEditing(null)}`.
No API call is issued. -/
def profCancelClick (s : ProfState) : ProfState × List ProfCall :=
  ({ s with editing := none }, [])

/-- `Profesores.handleSubmit` (lines 154-170): PUT when `editing`, POST
otherwise; on success reload, reset form, clear editing and error; on failure
only set the error message. -/
def profHandleSubmit (s : ProfState) (ok : Bool) : ProfState × List ProfCall :=
  let call : ProfCall :=
    match s.editing with
    | some id => ProfCall.put ("/profesores/" ++ toString id) s.form
    | none => ProfCall.post "/profesores" s.form
  if ok then
    ({ s with form := emptyProfForm, editing := none, error := none },
     [call, ProfCall.get "/profesores"])
  else
    ({ s with error := some "Error al guardar profesor. Verifica que los datos sean correctos." },
     [call])

/-- `Profesores.handleDelete` (lines 191-194): capture the id and show the
confirmation dialog. -/
def profHandleDelete (s : ProfState) (id : Nat) : ProfState :=
  { s with idEliminar := some id, «open» := true }

/-- `Profesores.eliminarProfesor` (lines 205-230): one DELETE for the captured
id; on success a reload follows and the dialog closes with a success notice;
on failure the dialog also closes, with a failure notice.  The 3-second
message timer is not modelled. -/
def eliminarProfesor (s : ProfState) (ok : Bool) : ProfState × List ProfCall :=
  let path := "/profesores/" ++ idInterp s.idEliminar
  if ok then
    ({ s with «open» := false, error := some "Profesor eliminado con éxito" },
     [ProfCall.delete path, ProfCall.get "/profesores"])
  else
    ({ s with «open» := false, error := some "No se pudo eliminar el profesor" },
     [ProfCall.delete path])

/-- The dialog's Cancelar button (line 507): `onClick={() => setOpen(false)}`. -/
def profDialogCancel (s : ProfState) : ProfState × List ProfCall :=
  ({ s with «open» := false }, [])

/-- A sample entity used to exhibit the behaviour of edit-then-cancel. -/
def sampleProfesor : Profesor :=
  { id := 1, dni := "12345678", nombre := "Ana", apellido := "Diaz",
    email := "ana@example.com", profesion := "Docente", telefono := "12345" }

/-- C3 counterexample: after editing `sampleProfesor` and pressing Cancelar,
the form is NOT the empty payload — the Cancelar button only clears the
editing flag and leaves the loaded fields in place. -/
theorem edit_cancel_form_not_empty :
    (profCancelClick (profHandleEdit initialProfState sampleProfesor)).1.form
      ≠ emptyProfForm := by
  decide

/-- C3 as amended: for every entity and state, editing then pressing Cancelar
clears the editing flag (returning the form to create mode) and issues no API
call — so the entity is not mutated — but the form keeps the edited entity's
field values instead of being reset to the empty payload. -/
theorem edit_cancel_keeps_form (s : ProfState) (p : Profesor) :
    (profCancelClick (profHandleEdit s p)).1.editing = none
    ∧ (profCancelClick (profHandleEdit s p)).2 = []
    ∧ (profCancelClick (profHandleEdit s p)).1.form
        = { dni := p.dni, nombre := p.nombre, apellido := p.apellido,
            email := p.email, profesion := p.profesion, telefono := p.telefono } := by
  refine ⟨rfl, rfl, rfl⟩

/-- C4: confirming the delete dialog issues exactly one DELETE, for the
captured id, and closes the dialog whether the call succeeds or fails; the
dialog's cancel button closes the dialog without issuing any call. -/
theorem delete_confirm_one_call (s : ProfState) (id : Nat) (ok : Bool) :
    ((eliminarProfesor (profHandleDelete s id) ok).2.filter ProfCall.isDelete
        = [ProfCall.delete ("/profesores/" ++ toString id)])
    ∧ (eliminarProfesor (profHandleDelete s id) ok).1.«open» = false
    ∧ (profDialogCancel s).2 = []
    ∧ (profDialogCancel s).1.«open» = false := by
  cases ok <;>
    simp [eliminarProfesor, profHandleDelete, profDialogCancel, idInterp,
      ProfCall.isDelete, List.filter]

/-- C5: when the create or the update call fails, the submit handler leaves
the form payload and the editing-target flag unchanged, so the same
submission can be retried. -/
theorem submit_failure_keeps_form (s : ProfState) :
    (profHandleSubmit s false).1.form = s.form
    ∧ (profHandleSubmit s false).1.editing = s.editing := by
  refine ⟨rfl, rfl⟩

/-!  The `Inscripciones` (enrollments) component
(src/src/components/Profesores.js lines 592-719 of the packed file).
Enrollments are read back with nested `curso` / `estudiante` objects and an
ISO timestamp `fecha`; the form instead keeps flat `cursoId` / `estudianteId`
fields.  Form fields initialised to `''` and later set to numbers are
modelled as `Option Nat` (`none` = the empty string). -/

/-- The nested course object of an enrollment read. -/
structure CursoRef where
  id : Nat
  nombre : String
deriving DecidableEq

/-- The nested student object of an enrollment read. -/
structure EstudianteRef where
  id : Nat
  nombre : String
  apellido : String
deriving DecidableEq

/-- An enrollment as read from `/cursos-estudiantes`. -/
structure Inscripcion where
  id : Nat
  curso : CursoRef
  estudiante : EstudianteRef
  nota : Nat
  fecha : String
deriving DecidableEq

/-- The enrollment form payload (hook `form` of Inscripciones). -/
structure InsForm where
  cursoId : Option Nat
  estudianteId : Option Nat
  nota : Option Nat
  fecha : String
deriving DecidableEq

/-- The enrollment component state hooks that the claims observe. -/
structure InsState where
  inscripciones : List Inscripcion
  editing : Option Nat
  form : InsForm
deriving DecidableEq

/-- The initial enrollment state (empty form, no editing target). -/
def initialInsState : InsState :=
  { inscripciones := [], editing := none,
    form := { cursoId := none, estudianteId := none, nota := none, fecha := "" } }

/-- JS `s.split('T')[0]`: the characters before the first 'T' (the whole
string when no 'T' occurs). -/
def splitFirstT (s : String) : String :=
  String.mk (s.data.takeWhile (fun c => c != 'T'))

/-- `Inscripciones.handleEdit` (lines 711-719): flatten the nested read into
the flat form — `cursoId := curso.id`, `estudianteId := estudiante.id`,
`nota := nota`, `fecha := fecha.split('T')[0]`. -/
def insHandleEdit (s : InsState) (ins : Inscripcion) : InsState :=
  { s with editing := some ins.id,
           form := { cursoId := some ins.curso.id,
                     estudianteId := some ins.estudiante.id,
                     nota := some ins.nota,
                     fecha := splitFirstT ins.fecha } }

/-- `takeWhile` stops exactly at the first 'T'. -/
theorem takeWhile_until_T (l r : List Char) (h : ∀ c ∈ l, c ≠ 'T') :
    (l ++ 'T' :: r).takeWhile (fun c => c != 'T') = l := by
  induction l with
  | nil => simp [List.takeWhile]
  | cons a t ih =>
    have ha : (a != 'T') = true := by
      simp [bne_iff_ne]
      exact h a (List.mem_cons_self a t)
    have ht : ∀ c ∈ t, c ≠ 'T' := fun c hc => h c (List.mem_cons_of_mem a hc)
    simp [List.takeWhile, ha, ih ht]

/-- A sample enrollment read, the spec's scenario value. -/
def sampleInscripcion : Inscripcion :=
  { id := 7,
    curso := { id := 2, nombre := "Algebra" },
    estudiante := { id := 5, nombre := "Luis", apellido := "Gomez" },
    nota := 8,
    fecha := "2024-03-01T00:00:00Z" }

/-- C6: starting an edit on an enrollment whose `fecha` is a calendar date
followed by a 'T' and a time part populates the form with the flattened
foreign keys `cursoId = curso.id`, `estudianteId = estudiante.id`, the grade
unchanged, and `fecha` reduced to the date part before the 'T'. -/
theorem edit_flattens_enrollment (s : InsState) (ins : Inscripcion)
    (d rest : String) (hd : ∀ c ∈ d.data, c ≠ 'T')
    (hf : ins.fecha = d ++ "T" ++ rest) :
    (insHandleEdit s ins).editing = some ins.id
    ∧ (insHandleEdit s ins).form.cursoId = some ins.curso.id
    ∧ (insHandleEdit s ins).form.estudianteId = some ins.estudiante.id
    ∧ (insHandleEdit s ins).form.nota = some ins.nota
    ∧ (insHandleEdit s ins).form.fecha = d := by
  refine ⟨rfl, rfl, rfl, rfl, ?_⟩
  show splitFirstT ins.fecha = d
  rw [hf]
  unfold splitFirstT
  have hdata : (d ++ "T" ++ rest).data = d.data ++ 'T' :: rest.data := by
    simp [String.data_append]
  rw [hdata, takeWhile_until_T _ _ hd]

/-- Witness for C6 at the spec's scenario: the enrollment with nested
`curso.id = 2`, `estudiante.id = 5`, `nota = 8` and
`fecha = "2024-03-01T00:00:00Z"` yields a form with `cursoId = 2`,
`estudianteId = 5`, `nota = 8`, `fecha = "2024-03-01"`. -/
theorem edit_flattens_enrollment_witness :
    ((∀ c ∈ ("2024-03-01" : String).data, c ≠ 'T')
      ∧ sampleInscripcion.fecha = "2024-03-01" ++ "T" ++ "00:00:00Z")
    ∧ ((insHandleEdit initialInsState sampleInscripcion).editing = some sampleInscripcion.id
       ∧ (insHandleEdit initialInsState sampleInscripcion).form.cursoId
           = some sampleInscripcion.curso.id
       ∧ (insHandleEdit initialInsState sampleInscripcion).form.estudianteId
           = some sampleInscripcion.estudiante.id
       ∧ (insHandleEdit initialInsState sampleInscripcion).form.nota
           = some sampleInscripcion.nota
       ∧ (insHandleEdit initialInsState sampleInscripcion).form.fecha = "2024-03-01") :=
  ⟨⟨by decide, by decide⟩,
    edit_flattens_enrollment initialInsState sampleInscripcion "2024-03-01" "00:00:00Z"
      (by decide) (by decide)⟩

/-!  Client-side filtering: `filteredProfesores`
(src/src/components/Profesores.js lines 270-279) and `filteredCursos`
(src/unnamed/part_003 lines 270-276).  JS `a.includes(b)` is contiguous
substring containment; `toLowerCase` maps each character to lower case. -/

/-- Whether `hay` starts with `needle` (character lists). -/
def startsWithSeq : List Char → List Char → Bool
  | _, [] => true
  | [], _ :: _ => false
  | a :: hs, b :: ns => a == b && startsWithSeq hs ns

/-- Whether `needle` occurs contiguously inside `hay` (character lists):
JS `String.prototype.includes`. -/
def containsSeq : List Char → List Char → Bool
  | [], needle => needle.isEmpty
  | a :: hs, needle => startsWithSeq (a :: hs) needle || containsSeq hs needle

/-- JS `hay.includes(needle)` on strings. -/
def jsIncludes (hay needle : String) : Bool :=
  containsSeq hay.data needle.data

/-- JS `s.toLowerCase()` (character-wise lower casing). -/
def jsToLower (s : String) : String :=
  String.mk (s.data.map Char.toLower)

/-- The search hook of the Profesores component (lines 73-80). -/
structure ProfSearch where
  dni : String
  nombre : String
  apellido : String
  email : String
  profesion : String
  telefono : String
deriving DecidableEq

/-- The predicate of `filteredProfesores` (lines 270-279): the conjunction,
over the six fields, of `profesor.f.toLowerCase().includes(search.f.toLowerCase())`. -/
def profMatches (search : ProfSearch) (p : Profesor) : Bool :=
  jsIncludes (jsToLower p.dni) (jsToLower search.dni)
  && jsIncludes (jsToLower p.nombre) (jsToLower search.nombre)
  && jsIncludes (jsToLower p.apellido) (jsToLower search.apellido)
  && jsIncludes (jsToLower p.email) (jsToLower search.email)
  && jsIncludes (jsToLower p.profesion) (jsToLower search.profesion)
  && jsIncludes (jsToLower p.telefono) (jsToLower search.telefono)

/-- `filteredProfesores` (line 270): `profesores.filter(...)`. -/
def filteredProfesores (search : ProfSearch) (profesores : List Profesor) : List Profesor :=
  profesores.filter (profMatches search)

/-- The nested `profesor` object of a course read. -/
structure ProfesorRef where
  id : Nat
  nombre : String
  apellido : String
deriving DecidableEq

/-- A course entity as read from `/cursos`: `profesor` is nullable. -/
structure Curso where
  id : Nat
  nombre : String
  descripcion : String
  profesor : Option ProfesorRef
deriving DecidableEq

/-- The search hook of the Cursos component (part_003 lines 79-83). -/
structure CursoSearch where
  nombre : String
  descripcion : String
  profesorId : String
deriving DecidableEq

/-- The predicate of `filteredCursos` (part_003 lines 270-276): substring
containment on `nombre` and `descripcion`, and
`search.profesorId === '' || curso.profesor?.id.toString() === search.profesorId`
(a null `profesor` makes the comparison false when the filter is non-empty). -/
def cursoMatches (search : CursoSearch) (curso : Curso) : Bool :=
  jsIncludes (jsToLower curso.nombre) (jsToLower search.nombre)
  && jsIncludes (jsToLower curso.descripcion) (jsToLower search.descripcion)
  && (search.profesorId == ""
      || (match curso.profesor with
          | some p => toString p.id == search.profesorId
          | none => false))

/-- `filteredCursos` (part_003 line 270): `cursos.filter(...)`. -/
def filteredCursos (search : CursoSearch) (cursos : List Curso) : List Curso :=
  cursos.filter (cursoMatches search)

/-- Modelled from the spec: `matches(entity, filters)` as "an AND of per-field
case-insensitive substring containment", stated as a conjunction over the list
of (entity-field, search-field) pairs. -/
def profMatchesSpec (search : ProfSearch) (p : Profesor) : Bool :=
  [(p.dni, search.dni), (p.nombre, search.nombre), (p.apellido, search.apellido),
   (p.email, search.email), (p.profesion, search.profesion),
   (p.telefono, search.telefono)].all
    (fun pr => jsIncludes (jsToLower pr.1) (jsToLower pr.2))

/-- Modelled from the spec: the Cursos predicate as an AND of per-field
case-insensitive substring containment over the text fields, with the
dropdown-style `profesorId` filter skipped when empty and otherwise an exact
reference-id match against the assigned teacher. -/
def cursoMatchesSpec (search : CursoSearch) (curso : Curso) : Bool :=
  [(curso.nombre, search.nombre), (curso.descripcion, search.descripcion)].all
    (fun pr => jsIncludes (jsToLower pr.1) (jsToLower pr.2))
  && (search.profesorId == ""
      || (match curso.profesor with
          | some p => toString p.id == search.profesorId
          | none => false))

/-- C7: the implemented filter predicates agree with the spec's description —
an AND over all search fields of case-insensitive substring containment, with
the Cursos `profesorId` dropdown filter matching by exact id (or skipped when
empty). -/
theorem filter_is_and_of_containment (search : ProfSearch) (p : Profesor)
    (cs : CursoSearch) (c : Curso) :
    (profMatches search p = profMatchesSpec search p)
    ∧ (cursoMatches cs c = cursoMatchesSpec cs c) := by
  constructor
  · simp only [profMatches, profMatchesSpec, List.all_cons, List.all_nil, Bool.and_true]
    ac_rfl
  · simp only [cursoMatches, cursoMatchesSpec, List.all_cons, List.all_nil, Bool.and_true]

/-- C8: filtering is idempotent — applying the same filter to the filtered
list returns it unchanged, for both the Profesores and the Cursos filters. -/
theorem filter_idempotent (search : ProfSearch) (l : List Profesor)
    (cs : CursoSearch) (lc : List Curso) :
    filteredProfesores search (filteredProfesores search l) = filteredProfesores search l
    ∧ filteredCursos cs (filteredCursos cs lc) = filteredCursos cs lc := by
  constructor
  · simp [filteredProfesores, List.filter_filter]
  · simp [filteredCursos, List.filter_filter]
